import Mathlib

/-!
Shallow embedding of `examples/client.py` from the scores-ws repository.

The script is an asyncio websocket client.  Its observable behaviour is fully
determined by the messages the server delivers, how the inbound stream ends,
and the point at which the background consumption task is cancelled, so we
embed the two coroutines `process_scores` and `run` as pure functions that
return the trace of transport-level actions performed on each connection
together with the way the coroutine terminated.

External library calls are modelled as parameters or abstract data:
  * `json.loads` becomes a parameter `loads : String → Option JsonObj`
    (`none` = the payload is not valid JSON, raising `json.JSONDecodeError`);
    a decoded object is a finite field map, and the subscript access
    `score['user_id']` becomes a lookup that raises `KeyError` on a miss;
  * the websocket is a list of pending inbound messages plus a `Tail` saying
    how the stream ends once they run out (normal close ends the `async for`,
    abnormal close raises `ConnectionClosedError`);
  * `asyncio` cancellation is a countdown `Option Nat`: `some k` means the
    `CancelledError` is delivered at the k-th `recv` suspension point of the
    `async for` loop, i.e. after `k` whole messages have been processed.
-/

namespace ScoresWs

/-- A decoded JSON object, as returned by `json.loads`: a finite map from
field names to (rendered) field values. -/
structure JsonObj where
  fields : List (String × String)
deriving DecidableEq, Repr

/-- One transport-level or application-level action performed by the client.
`send`/`recv`/`close` are operations on the websocket; `print` is the
consumer's output of one decoded score event. -/
inductive Act where
  | send (m : String)
  | recv (m : String)
  | close
  | print (userId pp beatmapId : String)
deriving DecidableEq, Repr

/-- Exceptions the client code can propagate (other than cancellation). -/
inductive Exn where
  | connectionClosed
  | jsonDecodeError
  | keyError (k : String)
deriving DecidableEq, Repr

/-- How a run of `process_scores` terminated: the `async for` ended normally,
the `CancelledError` was re-raised by the `except` clause, or some other
exception propagated. -/
inductive Outcome where
  | finished
  | cancelled
  | exn (e : Exn)
deriving DecidableEq, Repr

/-- How the inbound stream ends after the pending messages are exhausted. -/
inductive Tail where
  | closedOk
  | closedErr
deriving DecidableEq, Repr

/-- One loop iteration has passed: the pending cancellation point, if any,
moves one `recv` suspension closer. -/
def decr : Option Nat → Option Nat
  | none => none
  | some k => some (k - 1)

/-- Embedding of `process_scores` (client.py lines 40-47):

    async def process_scores(websocket):
        try:
            async for event in websocket:
                score = json.loads(event)
                print(f"{score['user_id']} got {score['pp']}pp on {score['beatmap_id']}")
        except asyncio.CancelledError:
            raise

Returns the trace of actions performed and the outcome.  Cancellation is
observed at the `recv` suspension point of the `async for`, before the next
message is taken; the f-string evaluates the three subscripts left to right,
so the first missing field determines the `KeyError`. -/
def process_scores (loads : String → Option JsonObj) :
    List String → Tail → Option Nat → List Act × Outcome
  | msgs, t, c =>
    if c = some 0 then ([], Outcome.cancelled)
    else
      match msgs with
      | [] =>
        match t with
        | Tail.closedOk => ([], Outcome.finished)
        | Tail.closedErr => ([], Outcome.exn Exn.connectionClosed)
      | m :: rest =>
        match loads m with
        | none => ([Act.recv m], Outcome.exn Exn.jsonDecodeError)
        | some j =>
          match j.fields.lookup "user_id" with
          | none => ([Act.recv m], Outcome.exn (Exn.keyError "user_id"))
          | some u =>
            match j.fields.lookup "pp" with
            | none => ([Act.recv m], Outcome.exn (Exn.keyError "pp"))
            | some p =>
              match j.fields.lookup "beatmap_id" with
              | none => ([Act.recv m], Outcome.exn (Exn.keyError "beatmap_id"))
              | some b =>
                let r := process_scores loads rest t (decr c)
                (Act.recv m :: Act.print u p b :: r.1, r.2)

/-- Embedding of client.py lines 23-28, the disconnect handshake the spec
calls `suspend()`: send `"disconnect"`, block for exactly one response
message (the checkpoint), then close.  `cpResp = none` models the connection
being lost or closed before the response arrives: `websocket.recv()` then
raises the transport's `ConnectionClosed` and no checkpoint is obtained. -/
def suspend (cpResp : Option String) : List Act × Except Exn String :=
  match cpResp with
  | none => ([Act.send "disconnect"], Except.error Exn.connectionClosed)
  | some score_id =>
    ([Act.send "disconnect", Act.recv score_id, Act.close], Except.ok score_id)

/-- Error taxonomy of the spec for a failed suspension. -/
inductive SuspendError where
  | ungracefulSuspend
deriving DecidableEq, Repr

/-- Modelled from the spec: the spec's `SubscriptionStream.suspend()` wraps
the disconnect handshake of client.py lines 23-28 and names its failure mode
`UngracefulSuspendError` — connection lost or closed before the checkpoint
response arrives.  The source example itself has no such wrapper type; it
surfaces the transport's `ConnectionClosed` directly. -/
def spec_suspend (cpResp : Option String) : Except SuspendError String :=
  match (suspend cpResp).2 with
  | Except.ok score_id => Except.ok score_id
  | Except.error _ => Except.error SuspendError.ungracefulSuspend

/-- How the whole `run` coroutine terminated. -/
inductive RunOutcome where
  | ok
  | raised (e : Exn)
deriving DecidableEq, Repr

/-- Result of a run: the action trace on the first connection, the action
trace on the second (resume) connection, and the final outcome. -/
structure RunResult where
  trace1 : List Act
  trace2 : List Act
  outcome : RunOutcome
deriving DecidableEq, Repr

/-- Embedding of `run` (client.py lines 7-38).  Parameters describe the
environment: `events1` are the messages the server delivers while the
listening task runs, `cancelAt` is the number of whole messages processed
before the `CancelledError` lands, `cpResp` is the message delivered in
response to `"disconnect"` (`none` = connection lost first), `events2` and
`tail2` describe the inbound stream of the resumed session.

Control flow mirrors the source: if the listening task was cancelled the
`except asyncio.CancelledError: pass` swallows it and `run` proceeds to the
disconnect handshake; if the task ended with another exception,
`await listening` re-raises it and `run` fails there; if the task finished
because the server closed the stream, the later `send("disconnect")` hits a
closed connection and raises. -/
def run (loads : String → Option JsonObj) (events1 : List String) (cancelAt : Nat)
    (cpResp : Option String) (events2 : List String) (tail2 : Tail) : RunResult :=
  match (process_scores loads events1 Tail.closedOk (some cancelAt)).2 with
  | Outcome.cancelled =>
    match (suspend cpResp).2 with
    | Except.error e =>
      ⟨Act.send "connect"
         :: (process_scores loads events1 Tail.closedOk (some cancelAt)).1
         ++ (suspend cpResp).1,
       [], RunOutcome.raised e⟩
    | Except.ok score_id =>
      ⟨Act.send "connect"
         :: (process_scores loads events1 Tail.closedOk (some cancelAt)).1
         ++ (suspend cpResp).1,
       Act.send score_id :: (process_scores loads events2 tail2 none).1,
       match (process_scores loads events2 tail2 none).2 with
       | Outcome.exn e => RunOutcome.raised e
       | _ => RunOutcome.ok⟩
  | Outcome.finished =>
    ⟨Act.send "connect"
       :: (process_scores loads events1 Tail.closedOk (some cancelAt)).1,
     [], RunOutcome.raised Exn.connectionClosed⟩
  | Outcome.exn e =>
    ⟨Act.send "connect"
       :: (process_scores loads events1 Tail.closedOk (some cancelAt)).1,
     [], RunOutcome.raised e⟩

/-- The messages sent client-to-server in a trace, in order. -/
def sends : List Act → List String
  | [] => []
  | Act.send m :: tr => m :: sends tr
  | Act.recv _ :: tr => sends tr
  | Act.close :: tr => sends tr
  | Act.print _ _ _ :: tr => sends tr

/-- The messages received server-to-client in a trace, in order. -/
def recvs : List Act → List String
  | [] => []
  | Act.send _ :: tr => recvs tr
  | Act.recv m :: tr => m :: recvs tr
  | Act.close :: tr => recvs tr
  | Act.print _ _ _ :: tr => recvs tr

/-- The decoded events delivered to the application in a trace, in order. -/
def printed : List Act → List (String × String × String)
  | [] => []
  | Act.send _ :: tr => printed tr
  | Act.recv _ :: tr => printed tr
  | Act.close :: tr => printed tr
  | Act.print u p b :: tr => (u, p, b) :: printed tr

/-- A message decodes cleanly: it is valid JSON and carries the three fields
the consumer accesses. -/
def decodesOk (loads : String → Option JsonObj) (m : String) : Bool :=
  match loads m with
  | none => false
  | some j =>
    ((j.fields.lookup "user_id").isSome && (j.fields.lookup "pp").isSome)
      && (j.fields.lookup "beatmap_id").isSome

/-- The value of field `k` of the decoded message `m` (defaulting when
absent; only used on messages that satisfy `decodesOk`). -/
def field (loads : String → Option JsonObj) (m k : String) : String :=
  ((loads m).bind (fun j => j.fields.lookup k)).getD ""

/-- The two actions one well-formed message contributes to the trace:
its receipt and the printing of its decoded fields. -/
def eventBlock (loads : String → Option JsonObj) (m : String) : List Act :=
  [Act.recv m,
   Act.print (field loads m "user_id") (field loads m "pp")
     (field loads m "beatmap_id")]

/-- The full trace contributed by a list of well-formed messages: the
concatenation of their event blocks, in order. -/
def blocks (loads : String → Option JsonObj) : List String → List Act
  | [] => []
  | m :: rest => eventBlock loads m ++ blocks loads rest

/-- The number of actions performed on a connection before the first
occurrence of the given action in its trace. -/
def opsBefore (a : Act) : List Act → Nat
  | [] => 0
  | x :: tr => if x = a then 0 else opsBefore a tr + 1

/-- Concrete decoder used to instantiate the model on sample inputs:
the message "good" is a well-formed score payload, anything else fails
to decode. -/
def sampleLoads : String → Option JsonObj := fun m =>
  if m = "good" then
    some ⟨[("user_id", "2"), ("pp", "300"), ("beatmap_id", "42")]⟩
  else none

/-! Unfolding lemmas for `process_scores`, one per control path. -/

/-- When the cancellation lands at the current `recv` suspension point, the
loop stops immediately and the `CancelledError` is re-raised. -/
theorem process_scores_cancel_now (loads : String → Option JsonObj)
    (msgs : List String) (t : Tail) :
    process_scores loads msgs t (some 0) = ([], Outcome.cancelled) := by
  rw [process_scores.eq_def]
  simp

/-- With no pending message and no cancellation due, the loop ends according
to how the stream ends. -/
theorem process_scores_nil (loads : String → Option JsonObj) (t : Tail)
    (c : Option Nat) (hc : c ≠ some 0) :
    process_scores loads [] t c =
      ([], match t with
           | Tail.closedOk => Outcome.finished
           | Tail.closedErr => Outcome.exn Exn.connectionClosed) := by
  rw [process_scores.eq_def]
  cases t <;> simp [hc]

/-- Processing one well-formed message contributes its event block to the
trace and the loop continues on the rest. -/
theorem process_scores_cons_good (loads : String → Option JsonObj)
    (m : String) (rest : List String) (t : Tail) (c : Option Nat)
    (hc : c ≠ some 0) (hm : decodesOk loads m = true) :
    process_scores loads (m :: rest) t c =
      (eventBlock loads m ++ (process_scores loads rest t (decr c)).1,
       (process_scores loads rest t (decr c)).2) := by
  cases hL : loads m with
  | none => simp [decodesOk, hL] at hm
  | some j =>
    cases hu : j.fields.lookup "user_id" with
    | none => simp [decodesOk, hL, hu] at hm
    | some u =>
      cases hp : j.fields.lookup "pp" with
      | none => simp [decodesOk, hL, hp] at hm
      | some p =>
        cases hb : j.fields.lookup "beatmap_id" with
        | none => simp [decodesOk, hL, hb] at hm
        | some b =>
          rw [process_scores.eq_def]
          simp [hc, hL, hu, hp, hb, eventBlock, field]

/-- Processing a message that fails to decode records its receipt and raises
an exception that is neither a cancellation nor a normal end of stream. -/
theorem process_scores_cons_bad (loads : String → Option JsonObj)
    (m : String) (rest : List String) (t : Tail) (c : Option Nat)
    (hc : c ≠ some 0) (hm : decodesOk loads m = false) :
    (process_scores loads (m :: rest) t c).1 = [Act.recv m] ∧
    (process_scores loads (m :: rest) t c).2 ≠ Outcome.cancelled ∧
    (process_scores loads (m :: rest) t c).2 ≠ Outcome.finished := by
  cases hL : loads m with
  | none => rw [process_scores.eq_def]; simp [hc, hL]
  | some j =>
    cases hu : j.fields.lookup "user_id" with
    | none => rw [process_scores.eq_def]; simp [hc, hL, hu]
    | some u =>
      cases hp : j.fields.lookup "pp" with
      | none => rw [process_scores.eq_def]; simp [hc, hL, hu, hp]
      | some p =>
        cases hb : j.fields.lookup "beatmap_id" with
        | none => rw [process_scores.eq_def]; simp [hc, hL, hu, hp, hb]
        | some b => simp [decodesOk, hL, hu, hp, hb] at hm

/-! Observation lemmas for traces. -/

theorem sends_append (a b : List Act) : sends (a ++ b) = sends a ++ sends b := by
  induction a with
  | nil => rfl
  | cons x tr ih => cases x <;> simp [sends, ih]

theorem recvs_append (a b : List Act) : recvs (a ++ b) = recvs a ++ recvs b := by
  induction a with
  | nil => rfl
  | cons x tr ih => cases x <;> simp [recvs, ih]

theorem printed_append (a b : List Act) :
    printed (a ++ b) = printed a ++ printed b := by
  induction a with
  | nil => rfl
  | cons x tr ih => cases x <;> simp [printed, ih]

theorem sends_blocks (loads : String → Option JsonObj) (l : List String) :
    sends (blocks loads l) = [] := by
  induction l with
  | nil => rfl
  | cons m rest ih => simp [blocks, sends_append, ih, eventBlock, sends]

theorem recvs_blocks (loads : String → Option JsonObj) (l : List String) :
    recvs (blocks loads l) = l := by
  induction l with
  | nil => rfl
  | cons m rest ih => simp [blocks, recvs_append, ih, eventBlock, recvs]

theorem printed_blocks (loads : String → Option JsonObj) (l : List String) :
    printed (blocks loads l) =
      l.map (fun m =>
        (field loads m "user_id", field loads m "pp", field loads m "beatmap_id")) := by
  induction l with
  | nil => rfl
  | cons m rest ih => simp [blocks, printed_append, ih, eventBlock, printed]

/-! Behaviour of the consumption loop on whole message sequences. -/

/-- A cancellation delivered after `k` whole messages, all of which decode
cleanly, stops the loop with exactly the first `k` event blocks in the trace
and outcome `cancelled`. -/
theorem process_take (loads : String → Option JsonObj) (msgs : List String) :
    ∀ (t : Tail) (k : Nat), k ≤ msgs.length →
      (∀ m ∈ msgs.take k, decodesOk loads m = true) →
      process_scores loads msgs t (some k) =
        (blocks loads (msgs.take k), Outcome.cancelled) := by
  induction msgs with
  | nil =>
    intro t k hk _
    have hk0 : k = 0 := Nat.le_zero.mp (by simpa using hk)
    subst hk0
    simp [process_scores_cancel_now, blocks]
  | cons m rest ih =>
    intro t k hk hgood
    cases k with
    | zero => simp [process_scores_cancel_now, blocks]
    | succ n =>
      have hm : decodesOk loads m = true := hgood m (by simp)
      have hgood' : ∀ x ∈ rest.take n, decodesOk loads x = true := by
        intro x hx
        exact hgood x (by simp [hx])
      have hn : n ≤ rest.length := by
        simp only [List.length_cons] at hk
        omega
      have hrec := ih t n hn hgood'
      rw [process_scores_cons_good loads m rest t (some (n + 1)) (by simp) hm]
      simp [decr, hrec, blocks]

/-- With no cancellation pending and every message well formed, the loop
consumes the whole stream and ends normally when the server closes it. -/
theorem process_none (loads : String → Option JsonObj) (msgs : List String) :
    (∀ m ∈ msgs, decodesOk loads m = true) →
    process_scores loads msgs Tail.closedOk none =
      (blocks loads msgs, Outcome.finished) := by
  induction msgs with
  | nil =>
    intro _
    simp [process_scores_nil loads Tail.closedOk none (by simp), blocks]
  | cons m rest ih =>
    intro hgood
    have hm : decodesOk loads m = true := hgood m (by simp)
    have hrec := ih (fun x hx => hgood x (by simp [hx]))
    rw [process_scores_cons_good loads m rest Tail.closedOk none (by simp) hm]
    simp [decr, hrec, blocks]

/-- The consumption loop never sends anything on the connection. -/
theorem sends_process (loads : String → Option JsonObj) (msgs : List String) :
    ∀ (t : Tail) (c : Option Nat), sends (process_scores loads msgs t c).1 = [] := by
  induction msgs with
  | nil =>
    intro t c
    by_cases hc : c = some 0
    · subst hc; simp [process_scores_cancel_now, sends]
    · cases t <;> simp [process_scores_nil loads _ c hc, sends]
  | cons m rest ih =>
    intro t c
    by_cases hc : c = some 0
    · subst hc; simp [process_scores_cancel_now, sends]
    · by_cases hm : decodesOk loads m = true
      · rw [process_scores_cons_good loads m rest t c hc hm]
        simp [sends_append, eventBlock, sends, ih]
      · have hb := process_scores_cons_bad loads m rest t c hc
          (by simpa using hm)
        simp [hb.1, sends]

/-! Reduction of `run` on the two suspension paths. -/

/-- The graceful path: cancellation after `k` whole events, checkpoint
response delivered.  The whole first-connection trace and the resumed
connection's intent reduce to closed form. -/
theorem run_graceful (loads : String → Option JsonObj) (ev1 : List String)
    (k : Nat) (score_id : String) (ev2 : List String) (t2 : Tail)
    (hk : k ≤ ev1.length)
    (hgood : ∀ m ∈ ev1.take k, decodesOk loads m = true) :
    run loads ev1 k (some score_id) ev2 t2 =
      ⟨Act.send "connect" :: blocks loads (ev1.take k)
         ++ [Act.send "disconnect", Act.recv score_id, Act.close],
       Act.send score_id :: (process_scores loads ev2 t2 none).1,
       match (process_scores loads ev2 t2 none).2 with
       | Outcome.exn e => RunOutcome.raised e
       | _ => RunOutcome.ok⟩ := by
  have h := process_take loads ev1 Tail.closedOk k hk hgood
  rw [run.eq_def, h]
  simp [suspend]

/-- The ungraceful path: the connection is lost before the checkpoint
response arrives; `run` raises and never opens the second connection. -/
theorem run_ungraceful (loads : String → Option JsonObj) (ev1 : List String)
    (k : Nat) (ev2 : List String) (t2 : Tail)
    (hk : k ≤ ev1.length)
    (hgood : ∀ m ∈ ev1.take k, decodesOk loads m = true) :
    run loads ev1 k none ev2 t2 =
      ⟨Act.send "connect" :: blocks loads (ev1.take k) ++ [Act.send "disconnect"],
       [], RunOutcome.raised Exn.connectionClosed⟩ := by
  have h := process_take loads ev1 Tail.closedOk k hk hgood
  rw [run.eq_def, h]
  simp [suspend]

/-- Whatever the environment does, the very first action on the first
connection is sending the intent `"connect"`. -/
theorem run_trace1_head (loads : String → Option JsonObj) (ev1 : List String)
    (k : Nat) (cpResp : Option String) (ev2 : List String) (t2 : Tail) :
    (run loads ev1 k cpResp ev2 t2).trace1.head? = some (Act.send "connect") := by
  rw [run.eq_def]
  cases h1 : (process_scores loads ev1 Tail.closedOk (some k)).2 with
  | cancelled =>
    cases h2 : (suspend cpResp).2 <;> simp
  | finished => simp
  | exn e => simp

/-! The claims. -/

/-- C1: graceful suspension performs the disconnect handshake in this exact
order — send the string "disconnect" over the still-open connection, block
for exactly one response message (the checkpoint token), then close the
connection; exactly one checkpoint token is obtained per graceful suspend
(the trace contains exactly one received message). -/
theorem suspend_handshake_order (score_id : String) :
    suspend (some score_id)
      = ([Act.send "disconnect", Act.recv score_id, Act.close],
         Except.ok score_id) ∧
    recvs (suspend (some score_id)).1 = [score_id] := by
  constructor <;> rfl

/-- C2: session negotiation sends exactly one outbound message as the
subscription intent — "connect" for a fresh subscription (the head of the
first connection's trace), or the checkpoint token for a resume (the head of
the second connection's trace) — and, the intent being the very first action
on the connection, no event is read before the send completes. -/
theorem negotiation_single_intent (loads : String → Option JsonObj)
    (ev1 : List String) (k : Nat) (cpResp : Option String)
    (ev2 : List String) (t2 : Tail) (score_id : String) :
    (run loads ev1 k cpResp ev2 t2).trace1.head? = some (Act.send "connect") ∧
    ((run loads ev1 k (some score_id) ev2 t2).trace2 = [] ∨
      (run loads ev1 k (some score_id) ev2 t2).trace2.head?
        = some (Act.send score_id)) := by
  refine ⟨run_trace1_head loads ev1 k cpResp ev2 t2, ?_⟩
  rw [run.eq_def]
  cases h1 : (process_scores loads ev1 Tail.closedOk (some k)).2 with
  | cancelled => simp [suspend]
  | finished => simp
  | exn e => simp

/-- C3: the checkpoint token round-trips verbatim — whatever string the
server delivers as the checkpoint response, the resume intent sent on the
second connection is that very string, for every possible string (so the
client never inspects, parses, or transforms it). -/
theorem checkpoint_roundtrip (loads : String → Option JsonObj)
    (ev1 : List String) (k : Nat) (score_id : String)
    (ev2 : List String) (t2 : Tail)
    (hk : k ≤ ev1.length)
    (hgood : ∀ m ∈ ev1.take k, decodesOk loads m = true) :
    (run loads ev1 k (some score_id) ev2 t2).trace2.head?
      = some (Act.send score_id) ∧
    Act.recv score_id ∈ (run loads ev1 k (some score_id) ev2 t2).trace1 := by
  rw [run_graceful loads ev1 k score_id ev2 t2 hk hgood]
  constructor
  · rfl
  · simp

theorem checkpoint_roundtrip_witness :
    (run sampleLoads [] 0 (some "ck-1") [] Tail.closedOk).trace2.head?
      = some (Act.send "ck-1") ∧
    Act.recv "ck-1" ∈ (run sampleLoads [] 0 (some "ck-1") [] Tail.closedOk).trace1 :=
  checkpoint_roundtrip sampleLoads [] 0 "ck-1" [] Tail.closedOk
    (by decide) (by decide)

/-- C4: a caller-initiated cancellation of the event-consumption loop is
never suppressed or converted: whenever the cancellation signal is actually
delivered (after `k` whole well-formed messages), `process_scores` ends with
outcome `cancelled` — the re-raised `CancelledError` — and not with any
failure outcome, so the caller can distinguish intentional cancellation from
a connection-failure termination. -/
theorem cancellation_reraised (loads : String → Option JsonObj)
    (msgs : List String) (t : Tail) (k : Nat)
    (hk : k ≤ msgs.length)
    (hgood : ∀ m ∈ msgs.take k, decodesOk loads m = true) :
    (process_scores loads msgs t (some k)).2 = Outcome.cancelled := by
  rw [process_take loads msgs t k hk hgood]

theorem cancellation_reraised_witness :
    (process_scores sampleLoads ["good", "good"] Tail.closedOk (some 2)).2
      = Outcome.cancelled :=
  cancellation_reraised sampleLoads ["good", "good"] Tail.closedOk 2
    (by decide) (by decide)

/-- C5: during an active, uncancelled session in which the server delivers
the messages `msgs`, the consumption loop receives exactly those messages in
the same order (no gaps, no duplicates), and yields exactly one decoded
event per inbound message, in the same order. -/
theorem events_in_order (loads : String → Option JsonObj) (msgs : List String)
    (hgood : ∀ m ∈ msgs, decodesOk loads m = true) :
    (process_scores loads msgs Tail.closedOk none).1 = blocks loads msgs ∧
    recvs (process_scores loads msgs Tail.closedOk none).1 = msgs ∧
    printed (process_scores loads msgs Tail.closedOk none).1
      = msgs.map (fun m =>
          (field loads m "user_id", field loads m "pp",
           field loads m "beatmap_id")) ∧
    (process_scores loads msgs Tail.closedOk none).2 = Outcome.finished := by
  have h := process_none loads msgs hgood
  refine ⟨by rw [h], ?_, ?_, by rw [h]⟩
  · rw [h]
    exact recvs_blocks loads msgs
  · rw [h]
    exact printed_blocks loads msgs

theorem events_in_order_witness :
    (process_scores sampleLoads ["good"] Tail.closedOk none).1
      = blocks sampleLoads ["good"] ∧
    recvs (process_scores sampleLoads ["good"] Tail.closedOk none).1 = ["good"] ∧
    printed (process_scores sampleLoads ["good"] Tail.closedOk none).1
      = ["good"].map (fun m =>
          (field sampleLoads m "user_id", field sampleLoads m "pp",
           field sampleLoads m "beatmap_id")) ∧
    (process_scores sampleLoads ["good"] Tail.closedOk none).2 = Outcome.finished :=
  events_in_order sampleLoads ["good"] (by decide)

/-- C6: cancelling consumption after `k` whole messages delivers exactly the
decoded events of the first `k` messages — whole events 1..k, never a
partial event — and leaves the connection open and uncorrupted, so the
graceful suspend handshake still completes on it afterwards (the trace
continues with the disconnect send, the checkpoint receipt and the close). -/
theorem cancellation_safe (loads : String → Option JsonObj)
    (ev1 : List String) (k : Nat) (score_id : String)
    (ev2 : List String) (t2 : Tail)
    (hk : k ≤ ev1.length)
    (hgood : ∀ m ∈ ev1.take k, decodesOk loads m = true) :
    (run loads ev1 k (some score_id) ev2 t2).trace1
      = Act.send "connect" :: blocks loads (ev1.take k)
          ++ [Act.send "disconnect", Act.recv score_id, Act.close] ∧
    printed (run loads ev1 k (some score_id) ev2 t2).trace1
      = (ev1.take k).map (fun m =>
          (field loads m "user_id", field loads m "pp",
           field loads m "beatmap_id")) := by
  rw [run_graceful loads ev1 k score_id ev2 t2 hk hgood]
  refine ⟨rfl, ?_⟩
  simp [printed, printed_append, printed_blocks]

theorem cancellation_safe_witness :
    (run sampleLoads ["good", "good"] 1 (some "ck-2") [] Tail.closedOk).trace1
      = Act.send "connect" :: blocks sampleLoads (["good", "good"].take 1)
          ++ [Act.send "disconnect", Act.recv "ck-2", Act.close] ∧
    printed (run sampleLoads ["good", "good"] 1 (some "ck-2") [] Tail.closedOk).trace1
      = (["good", "good"].take 1).map (fun m =>
          (field sampleLoads m "user_id", field sampleLoads m "pp",
           field sampleLoads m "beatmap_id")) :=
  cancellation_safe sampleLoads ["good", "good"] 1 "ck-2" [] Tail.closedOk
    (by decide) (by decide)

/-- C7: if the connection is lost or closed before the checkpoint response
arrives during suspension, the suspend fails — `UngracefulSuspendError` in
the spec's taxonomy, the transport's `ConnectionClosed` in the source — and
the caller is left with no checkpoint: the run never opens the resume
connection (its trace is empty) and terminates by raising. -/
theorem ungraceful_suspend_no_checkpoint (loads : String → Option JsonObj)
    (ev1 : List String) (k : Nat) (ev2 : List String) (t2 : Tail)
    (hk : k ≤ ev1.length)
    (hgood : ∀ m ∈ ev1.take k, decodesOk loads m = true) :
    spec_suspend none = Except.error SuspendError.ungracefulSuspend ∧
    (suspend none).2 = Except.error Exn.connectionClosed ∧
    (run loads ev1 k none ev2 t2).trace2 = [] ∧
    (run loads ev1 k none ev2 t2).outcome
      = RunOutcome.raised Exn.connectionClosed := by
  refine ⟨rfl, rfl, ?_, ?_⟩ <;>
    rw [run_ungraceful loads ev1 k ev2 t2 hk hgood]

theorem ungraceful_suspend_no_checkpoint_witness :
    spec_suspend none = Except.error SuspendError.ungracefulSuspend ∧
    (suspend none).2 = Except.error Exn.connectionClosed ∧
    (run sampleLoads ["good"] 1 none [] Tail.closedOk).trace2 = [] ∧
    (run sampleLoads ["good"] 1 none [] Tail.closedOk).outcome
      = RunOutcome.raised Exn.connectionClosed :=
  ungraceful_suspend_no_checkpoint sampleLoads ["good"] 1 [] Tail.closedOk
    (by decide) (by decide)

/-- C8: the initial intent is sent within the 5-second grace window from the
client's side because it is the first operation performed on the freshly
connected transport: zero actions — in particular zero blocking operations —
precede the intent send on the first connection's trace, whatever the
environment does. -/
theorem intent_first_operation (loads : String → Option JsonObj)
    (ev1 : List String) (k : Nat) (cpResp : Option String)
    (ev2 : List String) (t2 : Tail) :
    opsBefore (Act.send "connect") (run loads ev1 k cpResp ev2 t2).trace1 = 0 ∧
    (run loads ev1 k cpResp ev2 t2).trace1.head? = some (Act.send "connect") := by
  refine ⟨?_, run_trace1_head loads ev1 k cpResp ev2 t2⟩
  rw [run.eq_def]
  cases h1 : (process_scores loads ev1 Tail.closedOk (some k)).2 with
  | cancelled => cases h2 : (suspend cpResp).2 <;> simp [opsBefore]
  | finished => simp [opsBefore]
  | exn e => simp [opsBefore]

/-- C9: every delivered event is decoded as JSON and its `user_id`, `pp` and
`beatmap_id` fields are read; when a message fails to decode or lacks one of
those fields, the loop receives it, raises an exception there — terminating
consumption with no further receipts — and that exception is neither the
cancellation signal nor a normal end of stream: no well-formedness guard
exists at the interface. -/
theorem malformed_event_stops_stream (loads : String → Option JsonObj)
    (good : List String) (bad : String) (rest : List String) (t : Tail)
    (hgood : ∀ m ∈ good, decodesOk loads m = true)
    (hbad : decodesOk loads bad = false) :
    (process_scores loads (good ++ bad :: rest) t none).1
      = blocks loads good ++ [Act.recv bad] ∧
    (process_scores loads (good ++ bad :: rest) t none).2 ≠ Outcome.cancelled ∧
    (process_scores loads (good ++ bad :: rest) t none).2 ≠ Outcome.finished := by
  revert hgood
  induction good with
  | nil =>
    intro _
    simpa [blocks] using
      process_scores_cons_bad loads bad rest t none (by simp) hbad
  | cons m g ih =>
    intro hgood
    have hm : decodesOk loads m = true := hgood m (by simp)
    have ihh := ih (fun x hx => hgood x (by simp [hx]))
    rw [List.cons_append,
      process_scores_cons_good loads m (g ++ bad :: rest) t none (by simp) hm]
    refine ⟨?_, by simpa [decr] using ihh.2.1, by simpa [decr] using ihh.2.2⟩
    simp [decr, blocks, ihh.1]

theorem malformed_event_stops_stream_witness :
    (process_scores sampleLoads (["good"] ++ "oops" :: ["good"]) Tail.closedErr none).1
      = blocks sampleLoads ["good"] ++ [Act.recv "oops"] ∧
    (process_scores sampleLoads (["good"] ++ "oops" :: ["good"]) Tail.closedErr none).2
      ≠ Outcome.cancelled ∧
    (process_scores sampleLoads (["good"] ++ "oops" :: ["good"]) Tail.closedErr none).2
      ≠ Outcome.finished :=
  malformed_event_stops_stream sampleLoads ["good"] "oops" ["good"] Tail.closedErr
    (by decide) (by decide)

/-- C10: the consumption loop is read-only on the connection — no execution
of `process_scores` ever sends a message — so across a whole graceful first
session the client-to-server messages are exactly the intent "connect" and
the suspend notice "disconnect", in that order. -/
theorem consumption_read_only (loads : String → Option JsonObj)
    (msgs : List String) (t : Tail) (c : Option Nat)
    (ev1 : List String) (k : Nat) (score_id : String)
    (ev2 : List String) (t2 : Tail)
    (hk : k ≤ ev1.length)
    (hgood : ∀ m ∈ ev1.take k, decodesOk loads m = true) :
    sends (process_scores loads msgs t c).1 = [] ∧
    sends (run loads ev1 k (some score_id) ev2 t2).trace1
      = ["connect", "disconnect"] := by
  refine ⟨sends_process loads msgs t c, ?_⟩
  rw [run_graceful loads ev1 k score_id ev2 t2 hk hgood]
  simp [sends, sends_append, sends_blocks]

theorem consumption_read_only_witness :
    sends (process_scores sampleLoads ["good"] Tail.closedOk none).1 = [] ∧
    sends (run sampleLoads ["good"] 1 (some "ck-3") [] Tail.closedOk).trace1
      = ["connect", "disconnect"] :=
  consumption_read_only sampleLoads ["good"] Tail.closedOk none
    ["good"] 1 "ck-3" [] Tail.closedOk (by decide) (by decide)

end ScoresWs
